import Mathlib

/-
Verification of the pagination and data-shaping helpers of
`back-end/ocserv/modules/methods.py` (ocserv-users-management).

The Python functions `pagination` and `user_key_creator` are embedded
shallowly: query-string parameters become `Option String`, the Django
queryset becomes a `List α`, the DRF serializer becomes a function
`α → β` applied elementwise, Python exceptions become an `Except PyExc`
result, and the relevant parts of Django's `Paginator` (per_page
conversion, `validate_number`, `num_pages`, page slicing with
`allow_empty_first_page = True` and `orphans = 0`) are embedded as well.
-/

deriving instance DecidableEq for Except

namespace Ocserv

/-- The Python exceptions that the embedded code can raise:
`ValueError` (from `int()` on a malformed string), `ZeroDivisionError`
(from `Paginator.num_pages` with `per_page == 0`), Django's paging
exceptions, and `KeyError` (from a missing dict key). -/
inductive PyExc where
  | valueError
  | zeroDivisionError
  | emptyPage
  | pageNotAnInteger
  | invalidPage
  | keyError
deriving DecidableEq, Repr

/-- Python `str.isnumeric()` restricted to ASCII input: true on a
nonempty string of decimal digits. -/
def isnumeric (s : String) : Bool :=
  !s.isEmpty && s.toList.all Char.isDigit

/-- Value of a list of decimal digit characters, most significant first. -/
def digitsVal (cs : List Char) : Nat :=
  cs.foldl (fun a c => a * 10 + (c.toNat - 48)) 0

/-- Python `int(s)` on a string: surrounding whitespace is stripped, one
optional sign is allowed, then a nonempty run of decimal digits is
required. `none` models Python raising `ValueError`. -/
def pyInt (s : String) : Option Int :=
  let cs := ((s.toList.dropWhile Char.isWhitespace).reverse.dropWhile
      Char.isWhitespace).reverse
  let sd : Int × List Char :=
    match cs with
    | '-' :: rest => (-1, rest)
    | '+' :: rest => (1, rest)
    | _ => (1, cs)
  if sd.2.isEmpty then none
  else if sd.2.all Char.isDigit then some (sd.1 * (digitsVal sd.2 : Int))
  else none

/-- `int(request.GET.get("page", 1))` (methods.py line 10): a missing
parameter defaults to the int `1`; a present parameter is a raw string
handed to `int()`, which raises `ValueError` on malformed input. -/
def pyIntOfPage : Option String → Except PyExc Int
  | none => .ok 1
  | some s =>
    match pyInt s with
    | some n => .ok n
    | none => .error .valueError

/-- Python `str(x)` on an optional query-string value: `str(None)` is the
(non-numeric) string `"None"`. -/
def pyStrOpt : Option String → String
  | none => "None"
  | some s => s

/-- Python `str(n).isnumeric()` for an int `n`: the decimal representation
of an int consists only of digit characters exactly when `n ≥ 0`
(a negative int prints with a leading minus sign). -/
def intIsNumeric (n : Int) : Bool := 0 ≤ n

/-- `int(page if str(page).isnumeric() else 1)` (methods.py lines 12 and
31): the `page` field placed in the returned dict. -/
def pageField (page : Int) : Int :=
  if intIsNumeric page then page else 1

/-- `item_per_page = 100 if not str(item_per_page).isnumeric() else
item_per_page` (methods.py line 14), as the integer value the Paginator
will see: a numeric string keeps its value, anything else becomes 100. -/
def ippDefault (ip : Option String) : Nat :=
  if isnumeric (pyStrOpt ip) then digitsVal (pyStrOpt ip).toList else 100

/-- `if query_count < int(item_per_page): item_per_page = query_count`
(methods.py lines 15-16): clamp the page size down to the collection
size. -/
def ippClamped (count : Nat) (ip : Option String) : Nat :=
  if count < ippDefault ip then count else ippDefault ip

/-- Django `Paginator.num_pages` for a collection of size `count` and
page size `pp`, before the zero-divisor check: `ceil(max(1, count) / pp)`
(orphans = 0, allow_empty_first_page = True). Only evaluated with
`pp ≠ 0`. -/
def numPagesVal (count pp : Nat) : Nat :=
  (max count 1 + pp - 1) / pp

/-- Django `Paginator.num_pages`: raises `ZeroDivisionError` when
`per_page == 0`. -/
def num_pages (count pp : Nat) : Except PyExc Nat :=
  if pp = 0 then .error .zeroDivisionError
  else .ok (numPagesVal count pp)

/-- Django `Paginator.validate_number` on an int page number: a number
below 1 raises `EmptyPage`; otherwise `num_pages` is evaluated (raising
`ZeroDivisionError` when `per_page == 0`); a number above `num_pages`
raises `EmptyPage` unless it is 1 (allow_empty_first_page). -/
def validate_number (count pp : Nat) (number : Int) : Except PyExc Int :=
  if number < 1 then .error .emptyPage
  else if pp = 0 then .error .zeroDivisionError
  else if (numPagesVal count pp : Int) < number then
    if number = 1 then .ok number else .error .emptyPage
  else .ok number

/-- Django `Paginator.page(number).object_list`: validate the number,
then slice `l[bottom:top]` with `bottom = (number - 1) * per_page`,
`top = bottom + per_page` clamped to the collection size. -/
def page_object_list (l : List α) (pp : Nat) (number : Int) :
    Except PyExc (List α) :=
  match validate_number l.length pp number with
  | .error e => .error e
  | .ok n =>
    let bottom := (n - 1).toNat * pp
    let top := bottom + pp
    let top := if l.length ≤ top then l.length else top
    .ok ((l.drop bottom).take (top - bottom))

/-- The dict shape returned by `pagination`: `total_count` is `none` in
the empty-collection shape (methods.py line 12) and present otherwise
(lines 28-33). -/
structure PageDict (β : Type) where
  result : List β
  pages : Nat
  page : Int
  total_count : Option Nat
deriving DecidableEq, Repr

/-- A `pagination` return value: either one of the two dict shapes, or
the bare `(queryset.none(), 0)` tuple of the `ZeroDivisionError` branch
(methods.py line 21). -/
inductive PaginationResult (α β : Type) where
  | dict : PageDict β → PaginationResult α β
  | tuple : List α → Nat → PaginationResult α β
deriving DecidableEq, Repr

/-- `pages = paginator.num_pages`, the 0/1 normalization, serialization
of the page slice and the non-empty dict shape (methods.py lines 24-33). -/
def buildDict (qs : List α) (f : α → β) (pp : Nat) (page : Int)
    (obj : List α) : Except PyExc (PaginationResult α β) :=
  match num_pages qs.length pp with
  | .error e => .error e
  | .ok np =>
    .ok (.dict
      { result := obj.map f
        pages := if np = 0 ∨ np = 1 then 1 else np
        page := pageField page
        total_count := some qs.length })

/-- The try/except around `paginator.page(page)` (methods.py lines
18-23): `ZeroDivisionError` returns the bare `(queryset.none(), 0)`
tuple; the Django paging exceptions fall back to page 1's slice, and an
exception raised by that fallback itself propagates uncaught. -/
def paginationBody (qs : List α) (f : α → β) (pp : Nat) (page : Int) :
    Except PyExc (PaginationResult α β) :=
  match page_object_list qs pp page with
  | .ok obj => buildDict qs f pp page obj
  | .error .zeroDivisionError => .ok (.tuple [] 0)
  | .error .emptyPage =>
    match page_object_list qs pp 1 with
    | .ok obj => buildDict qs f pp page obj
    | .error e => .error e
  | .error .pageNotAnInteger =>
    match page_object_list qs pp 1 with
    | .ok obj => buildDict qs f pp page obj
    | .error e => .error e
  | .error .invalidPage =>
    match page_object_list qs pp 1 with
    | .ok obj => buildDict qs f pp page obj
    | .error e => .error e
  | .error e => .error e

/-- `pagination(request, queryset, serializer)` (methods.py lines 6-33):
`page = int(request.GET.get("page", 1))` first (so a malformed page
parameter raises `ValueError` before anything else), then the
empty-collection early return, then item_per_page normalization and the
paginator. -/
def pagination (pp ip : Option String) (qs : List α) (f : α → β) :
    Except PyExc (PaginationResult α β) :=
  match pyIntOfPage pp with
  | .error e => .error e
  | .ok page =>
    if qs.length = 0 then
      .ok (.dict { result := [], pages := 1, page := pageField page,
                   total_count := none })
    else
      paginationBody qs f (ippClamped qs.length ip) page

/-- Python dict subscript `d[k]` on a dict modelled as an association
list with distinct keys: raises `KeyError` when the key is absent. -/
def pyDictGet (d : List (String × V)) (k : String) : Except PyExc V :=
  match d.lookup k with
  | some v => .ok v
  | none => .error .keyError

/-- The dict literal built for one record inside `user_key_creator`
(methods.py lines 39-50): reads the nine occtl keys in literal order
(the first missing key raises `KeyError`) and emits the renamed dict. -/
def user_key_creator_record (i : List (String × V)) :
    Except PyExc (List (String × V)) := do
  let username ← pyDictGet i "Username"
  let hostname ← pyDictGet i "Hostname"
  let device ← pyDictGet i "Device"
  let remote_ip ← pyDictGet i "Remote IP"
  let user_agent ← pyDictGet i "User-Agent"
  let since ← pyDictGet i "_Connected at"
  let connected_at ← pyDictGet i "Connected at"
  let average_rx ← pyDictGet i "Average RX"
  let average_tx ← pyDictGet i "Average TX"
  return [("username", username), ("hostname", hostname),
          ("device", device), ("remote_ip", remote_ip),
          ("user_agent", user_agent), ("since", since),
          ("connected_at", connected_at), ("average_rx", average_rx),
          ("average_tx", average_tx)]

/-- The list comprehension of `user_key_creator`: left to right, the
first raised `KeyError` aborts the whole call. -/
def user_key_creator_list (l : List (List (String × V))) :
    Except PyExc (List (List (String × V))) :=
  match l with
  | [] => .ok []
  | i :: rest => do
    let r ← user_key_creator_record i
    let rs ← user_key_creator_list rest
    return r :: rs

/-- The `users` argument of `user_key_creator`: either a JSON string or
an already-parsed list of records. -/
inductive UsersArg (V : Type) where
  | str : String → UsersArg V
  | list : List (List (String × V)) → UsersArg V

/-- `user_key_creator(users)` (methods.py lines 36-52), parameterized by
the `json.loads` parse function restricted to strings that decode to a
list of records: a string argument is parsed first, then both cases run
the same comprehension. -/
def user_key_creator (loads : String → List (List (String × V))) :
    UsersArg V → Except PyExc (List (List (String × V)))
  | .str s => user_key_creator_list (loads s)
  | .list l => user_key_creator_list l

/-- A record carries the nine occtl keys that `user_key_creator` reads. -/
def hasNineKeys (i : List (String × V)) : Prop :=
  (i.lookup "Username").isSome ∧ (i.lookup "Hostname").isSome ∧
  (i.lookup "Device").isSome ∧ (i.lookup "Remote IP").isSome ∧
  (i.lookup "User-Agent").isSome ∧ (i.lookup "_Connected at").isSome ∧
  (i.lookup "Connected at").isSome ∧ (i.lookup "Average RX").isSome ∧
  (i.lookup "Average TX").isSome

instance (i : List (String × V)) [DecidableEq V] :
    Decidable (hasNineKeys i) := by
  unfold hasNineKeys; infer_instance

/-- The renamed dict that `user_key_creator` produces for one record
that carries all nine keys. -/
def renameRecord [Inhabited V] (i : List (String × V)) :
    List (String × V) :=
  [("username", ((i.lookup "Username").getD default)),
   ("hostname", ((i.lookup "Hostname").getD default)),
   ("device", ((i.lookup "Device").getD default)),
   ("remote_ip", ((i.lookup "Remote IP").getD default)),
   ("user_agent", ((i.lookup "User-Agent").getD default)),
   ("since", ((i.lookup "_Connected at").getD default)),
   ("connected_at", ((i.lookup "Connected at").getD default)),
   ("average_rx", ((i.lookup "Average RX").getD default)),
   ("average_tx", ((i.lookup "Average TX").getD default))]

theorem numPagesVal_pos (count pp : Nat) (hp : 1 ≤ pp) :
    1 ≤ numPagesVal count pp := by
  unfold numPagesVal
  rw [Nat.le_div_iff_mul_le hp]
  omega

theorem numPagesVal_self (count : Nat) (hc : 1 ≤ count) :
    numPagesVal count count = 1 := by
  unfold numPagesVal
  rw [Nat.max_eq_left hc]
  have h1 : count + count - 1 = (count - 1) + count := by omega
  rw [h1, Nat.add_div_right _ (by omega), Nat.div_eq_of_lt (by omega)]

theorem validate_number_valid (count pp : Nat) (n : Int) (h1 : 1 ≤ n)
    (hp : pp ≠ 0) (h2 : ¬ (numPagesVal count pp : Int) < n) :
    validate_number count pp n = .ok n := by
  unfold validate_number
  rw [if_neg (by omega), if_neg hp, if_neg h2]

theorem validate_number_low (count pp : Nat) (n : Int) (h1 : n < 1) :
    validate_number count pp n = .error .emptyPage := by
  unfold validate_number
  rw [if_pos h1]

theorem validate_number_out (count pp : Nat) (n : Int) (hp : pp ≠ 0)
    (hnp : 1 ≤ numPagesVal count pp) (h : (numPagesVal count pp : Int) < n) :
    validate_number count pp n = .error .emptyPage := by
  unfold validate_number
  rw [if_neg (by omega), if_neg hp, if_pos h, if_neg (by omega)]

theorem page_object_list_page1 (l : List α) (pp : Nat) (hl : l ≠ [])
    (hp : 1 ≤ pp) (hpc : pp ≤ l.length) :
    page_object_list l pp 1 = .ok (l.take pp) := by
  have hc : 1 ≤ l.length := List.length_pos.mpr hl
  have hnp := numPagesVal_pos l.length pp hp
  unfold page_object_list
  rw [validate_number_valid _ _ _ (by omega) (by omega) (by omega)]
  dsimp only
  norm_num
  split <;> [skip; rfl]
  · have hlen : pp = l.length := by omega
    rw [hlen]

theorem page_object_list_low (l : List α) (pp : Nat) (n : Int)
    (h1 : n < 1) : page_object_list l pp n = .error .emptyPage := by
  unfold page_object_list
  rw [validate_number_low _ _ _ h1]

theorem page_object_list_out (l : List α) (pp : Nat) (n : Int)
    (hp : pp ≠ 0) (hnp : 1 ≤ numPagesVal l.length pp)
    (h : (numPagesVal l.length pp : Int) < n) :
    page_object_list l pp n = .error .emptyPage := by
  unfold page_object_list
  rw [validate_number_out _ _ _ hp hnp h]

theorem page_object_list_valid (l : List α) (pp : Nat) (n : Int)
    (h1 : 1 ≤ n) (hp : pp ≠ 0) (h2 : ¬ (numPagesVal l.length pp : Int) < n) :
    ∃ obj, page_object_list l pp n = .ok obj := by
  unfold page_object_list
  rw [validate_number_valid _ _ _ h1 hp h2]
  exact ⟨_, rfl⟩

theorem buildDict_eq (qs : List α) (f : α → β) (pp : Nat) (page : Int)
    (obj : List α) (hp : pp ≠ 0) (hnp : 1 ≤ numPagesVal qs.length pp) :
    buildDict qs f pp page obj =
      .ok (.dict { result := obj.map f, pages := numPagesVal qs.length pp,
                   page := pageField page, total_count := some qs.length }) := by
  unfold buildDict num_pages
  rw [if_neg hp]
  dsimp only
  have hpages : (if numPagesVal qs.length pp = 0 ∨ numPagesVal qs.length pp = 1
      then 1 else numPagesVal qs.length pp) = numPagesVal qs.length pp := by
    split
    · next h => rcases h with h | h <;> omega
    · rfl
  rw [hpages]

theorem buildDict_dict_props (qs : List α) (f : α → β) (pp : Nat)
    (page : Int) (obj : List α) (d : PageDict β)
    (h : buildDict qs f pp page obj = .ok (.dict d)) :
    d.page = pageField page ∧ 1 ≤ d.pages := by
  unfold buildDict at h
  cases hn : num_pages qs.length pp with
  | error e => rw [hn] at h; exact absurd h (by simp)
  | ok np =>
    rw [hn] at h
    dsimp only at h
    simp only [Except.ok.injEq, PaginationResult.dict.injEq] at h
    rw [← h]
    refine ⟨rfl, ?_⟩
    dsimp only
    split <;> omega

theorem paginationBody_dict_props (qs : List α) (f : α → β) (pp : Nat)
    (n : Int) (d : PageDict β)
    (h : paginationBody qs f pp n = .ok (.dict d)) :
    d.page = pageField n ∧ 1 ≤ d.pages := by
  unfold paginationBody at h
  cases hf : page_object_list qs pp n with
  | ok obj =>
    rw [hf] at h
    exact buildDict_dict_props qs f pp n obj d h
  | error e =>
    rw [hf] at h
    cases e
    case valueError => exact absurd h (by simp)
    case zeroDivisionError => exact absurd h (by simp)
    case keyError => exact absurd h (by simp)
    all_goals
      cases hg : page_object_list qs pp 1 with
      | ok obj =>
        rw [hg] at h
        exact buildDict_dict_props qs f pp n obj d h
      | error e2 =>
        rw [hg] at h
        exact absurd h (by simp)

theorem paginationBody_out_of_range (qs : List α) (f : α → β) (pp : Nat)
    (n : Int) (hq : qs ≠ []) (hp1 : 1 ≤ pp) (hpc : pp ≤ qs.length)
    (hout : (numPagesVal qs.length pp : Int) < n) :
    paginationBody qs f pp n =
      .ok (.dict { result := (qs.take pp).map f,
                   pages := numPagesVal qs.length pp,
                   page := pageField n, total_count := some qs.length }) := by
  have hnp := numPagesVal_pos qs.length pp hp1
  unfold paginationBody
  rw [page_object_list_out qs pp n (by omega) hnp hout]
  dsimp only
  rw [page_object_list_page1 qs pp hq hp1 hpc]
  dsimp only
  rw [buildDict_eq qs f pp n (qs.take pp) (by omega) hnp]

theorem paginationBody_full (qs : List α) (f : α → β) (n : Int)
    (hq : qs ≠ []) :
    paginationBody qs f qs.length n =
      .ok (.dict { result := qs.map f, pages := 1, page := pageField n,
                   total_count := some qs.length }) := by
  have hc : 1 ≤ qs.length := List.length_pos.mpr hq
  have hself := numPagesVal_self qs.length hc
  by_cases h1 : n < 1
  · unfold paginationBody
    rw [page_object_list_low qs qs.length n h1]
    dsimp only
    rw [page_object_list_page1 qs qs.length hq hc le_rfl]
    dsimp only
    rw [buildDict_eq qs f qs.length n _ (by omega) (by omega)]
    rw [List.take_length, hself]
  · by_cases h2 : (numPagesVal qs.length qs.length : Int) < n
    · rw [paginationBody_out_of_range qs f qs.length n hq hc le_rfl h2]
      rw [List.take_length, hself]
    · rw [hself] at h2
      have hn1 : n = 1 := by omega
      subst hn1
      unfold paginationBody
      rw [page_object_list_page1 qs qs.length hq hc le_rfl]
      dsimp only
      rw [buildDict_eq qs f qs.length 1 _ (by omega) (by omega)]
      rw [List.take_length, hself]

theorem paginationBody_form (qs : List α) (f : α → β) (pp : Nat) (n : Int)
    (hq : qs ≠ []) (hp1 : 1 ≤ pp) (hpc : pp ≤ qs.length) :
    ∃ obj : List α, paginationBody qs f pp n =
      .ok (.dict { result := obj.map f, pages := numPagesVal qs.length pp,
                   page := pageField n, total_count := some qs.length }) := by
  have hnp := numPagesVal_pos qs.length pp hp1
  by_cases h1 : n < 1
  · refine ⟨qs.take pp, ?_⟩
    unfold paginationBody
    rw [page_object_list_low qs pp n h1]
    dsimp only
    rw [page_object_list_page1 qs pp hq hp1 hpc]
    dsimp only
    rw [buildDict_eq qs f pp n _ (by omega) hnp]
  · by_cases h2 : (numPagesVal qs.length pp : Int) < n
    · exact ⟨qs.take pp, paginationBody_out_of_range qs f pp n hq hp1 hpc h2⟩
    · obtain ⟨obj, hobj⟩ := page_object_list_valid qs pp n (by omega)
        (by omega) h2
      refine ⟨obj, ?_⟩
      unfold paginationBody
      rw [hobj]
      dsimp only
      rw [buildDict_eq qs f pp n obj (by omega) hnp]

theorem ippClamped_le (count : Nat) (ip : Option String) :
    ippClamped count ip ≤ count := by
  unfold ippClamped
  split <;> omega

theorem pyIntOfPage_error_eq (pp : Option String) (e : PyExc)
    (h : pyIntOfPage pp = .error e) : e = .valueError := by
  cases pp with
  | none => exact absurd h (by simp [pyIntOfPage])
  | some s =>
    cases hs : pyInt s with
    | none =>
      simp [pyIntOfPage, hs] at h
      exact h.symm
    | some n => simp [pyIntOfPage, hs] at h

theorem numPagesVal_eq (count pp : Nat) (hc : 1 ≤ count) :
    numPagesVal count pp = (count + pp - 1) / pp := by
  unfold numPagesVal
  rw [Nat.max_eq_left hc]

theorem pageField_eq (n : Int) : pageField n = if 0 ≤ n then n else 1 := by
  simp [pageField, intIsNumeric]

theorem pagination_dict_of_ok {α β : Type} (pp ip : Option String)
    (qs : List α) (f : α → β) (n : Int) (hq : qs ≠ [])
    (hn : pyIntOfPage pp = .ok n) (hip : ippClamped qs.length ip ≠ 0) :
    ∃ obj : List α, pagination pp ip qs f =
      .ok (.dict { result := obj.map f,
                   pages := numPagesVal qs.length (ippClamped qs.length ip),
                   page := pageField n, total_count := some qs.length }) := by
  have hc : 1 ≤ qs.length := List.length_pos.mpr hq
  have hle := ippClamped_le qs.length ip
  obtain ⟨obj, hobj⟩ := paginationBody_form qs f (ippClamped qs.length ip) n
    hq (by omega) hle
  refine ⟨obj, ?_⟩
  unfold pagination
  rw [hn]
  dsimp only
  rw [if_neg (by omega)]
  exact hobj

/-- C1: the spec states that pagination never raises for malformed
pagination parameters and always degrades to a safe default. The code
contradicts this (and its own later non-numeric-page fallback on lines
12 and 31): `int(request.GET.get("page", 1))` on line 10 raises
`ValueError` for a non-integer page string such as `"abc"` before any
fallback can run. -/
theorem pagination_raises_on_malformed_page :
    pagination (some "abc") none ([0] : List Nat) (fun n => n) =
      .error .valueError := by decide

/-- C2 counterexample: the claim says every requested page value that is
not a string of digits yields a `page` field of 1. The value `"+5"` is
not a string of digits, yet `int("+5")` parses to 5 and the returned
`page` field is 5, not 1. -/
theorem pagination_page_field_counterexample :
    isnumeric "+5" = false ∧
    pagination (some "+5") none ([] : List Nat) (fun n => n) =
      .ok (.dict { result := [], pages := 1, page := 5,
                   total_count := none }) := by decide

/-- C2 amended: a requested page value that `int()` cannot parse makes
pagination raise `ValueError`; when it parses to `n`, any returned dict
carries `page = n` if `n ≥ 0` (the decimal form of `n` is a digit
string) and `page = 1` if `n < 0`. -/
theorem pagination_page_field_amended :
    ∀ {α β : Type} (pp ip : Option String) (qs : List α) (f : α → β),
      (pyIntOfPage pp = .error .valueError →
        pagination pp ip qs f = .error .valueError) ∧
      (∀ (n : Int) (d : PageDict β), pyIntOfPage pp = .ok n →
        pagination pp ip qs f = .ok (.dict d) →
        d.page = if 0 ≤ n then n else 1) := by
  intro α β pp ip qs f
  constructor
  · intro h
    unfold pagination
    rw [h]
  · intro n d hn hd
    rw [← pageField_eq]
    unfold pagination at hd
    rw [hn] at hd
    dsimp only at hd
    by_cases hq : qs.length = 0
    · rw [if_pos hq] at hd
      simp only [Except.ok.injEq, PaginationResult.dict.injEq] at hd
      rw [← hd]
    · rw [if_neg hq] at hd
      exact (paginationBody_dict_props qs f _ n d hd).1

/-- C2 amended, witness: for the parseable negative page `"-7"` on a
one-element collection the returned dict's `page` field is 1. -/
theorem pagination_page_field_amended_witness :
    ({ result := [5], pages := 1, page := 1,
       total_count := some 1 } : PageDict Nat).page =
      if (0 : Int) ≤ -7 then -7 else 1 := by
  have hcall : pagination (some "-7") none ([5] : List Nat) (fun n => n) =
      .ok (.dict { result := [5], pages := 1, page := 1,
                   total_count := some 1 }) := by decide
  exact (pagination_page_field_amended (some "-7") none ([5] : List Nat)
    (fun n => n)).2 (-7) _ (by decide) hcall

/-- C3 counterexample: the claim says a size-0 collection yields the
empty dict shape regardless of the requested page value, but the raw
page value `"abc"` makes pagination raise `ValueError` even on an empty
collection, returning no dict at all. -/
theorem pagination_empty_shape_counterexample :
    pagination (some "abc") (some "10") ([] : List Nat) (fun n => n) =
      .error .valueError := by decide

/-- C3 amended: for a size-0 collection and a page value that `int()`
parses to `n`, pagination returns exactly
`{result: [], pages: 1, page: n if n ≥ 0 else 1}` with no `total_count`
key, regardless of the item_per_page value; an unparseable page value
raises `ValueError` instead. -/
theorem pagination_empty_shape_amended :
    ∀ {α β : Type} (pp ip : Option String) (f : α → β) (n : Int),
      pyIntOfPage pp = .ok n →
      pagination pp ip ([] : List α) f =
        .ok (.dict { result := ([] : List β), pages := 1,
                     page := if 0 ≤ n then n else 1,
                     total_count := none }) := by
  intro α β pp ip f n hn
  unfold pagination
  rw [hn, ← pageField_eq]
  dsimp only [List.length_nil]
  rw [if_pos rfl]

/-- C3 amended, witness: the empty-collection shape at page `"7"` and a
malformed item_per_page. -/
theorem pagination_empty_shape_amended_witness :
    pagination (some "7") (some "xyz") ([] : List Nat) (fun n => n) =
      .ok (.dict { result := ([] : List Nat), pages := 1,
                   page := if (0 : Int) ≤ 7 then 7 else 1,
                   total_count := none }) :=
  pagination_empty_shape_amended (some "7") (some "xyz") (fun n => n) 7
    (by decide)

/-- C4 counterexample: the claim says the division-by-zero branch is
unreachable because every input passing item_per_page normalization
yields a positive page size. But the digit string `"0"` passes the
normalization untouched (it is numeric, and the clamp only lowers values
above the collection size), the Paginator gets `per_page = 0`, and the
`ZeroDivisionError` branch returns the bare `(queryset.none(), 0)`
tuple. -/
theorem pagination_zero_page_size_counterexample :
    isnumeric "0" = true ∧
    pagination (some "1") (some "0") ([0, 1, 2] : List Nat) (fun n => n) =
      .ok (.tuple [] 0) := by decide

/-- C4 amended: for a non-empty collection, whenever the normalized
item_per_page is nonzero — that is, for every requested value except a
digit string of value 0 — the effective page size is at least 1 and the
division-by-zero branch is unreachable: pagination returns neither the
bare tuple nor a `ZeroDivisionError`. -/
theorem pagination_page_size_positive_amended :
    ∀ {α β : Type} (pp ip : Option String) (qs : List α) (f : α → β),
      qs ≠ [] → ippClamped qs.length ip ≠ 0 →
      1 ≤ ippClamped qs.length ip ∧
      (∀ (l : List α) (c : Nat), pagination pp ip qs f ≠ .ok (.tuple l c)) ∧
      pagination pp ip qs f ≠ .error .zeroDivisionError := by
  intro α β pp ip qs f hq hip
  refine ⟨by omega, ?_⟩
  have key : pagination pp ip qs f = .error .valueError ∨
      ∃ d : PageDict β, pagination pp ip qs f = .ok (.dict d) := by
    cases hp : pyIntOfPage pp with
    | error e =>
      left
      have he := pyIntOfPage_error_eq pp e hp
      unfold pagination
      rw [hp, he]
    | ok n =>
      right
      obtain ⟨obj, hobj⟩ := pagination_dict_of_ok pp ip qs f n hq hp hip
      exact ⟨_, hobj⟩
  rcases key with he | ⟨d, hd⟩
  · rw [he]
    exact ⟨fun l c => by simp, by simp⟩
  · rw [hd]
    exact ⟨fun l c => by simp, by simp⟩

/-- C4 amended, witness: with item_per_page `"2"` on a three-element
collection the effective page size is positive and no tuple or
`ZeroDivisionError` escape happens. -/
theorem pagination_page_size_positive_amended_witness :
    1 ≤ ippClamped ([0, 1, 2] : List Nat).length (some "2") ∧
    (∀ (l : List Nat) (c : Nat),
      pagination (some "1") (some "2") ([0, 1, 2] : List Nat) (fun n => n) ≠
        .ok (.tuple l c)) ∧
    pagination (some "1") (some "2") ([0, 1, 2] : List Nat) (fun n => n) ≠
      .error .zeroDivisionError :=
  pagination_page_size_positive_amended (some "1") (some "2")
    ([0, 1, 2] : List Nat) (fun n => n) (by decide) (by decide)

/-- C5: item_per_page normalization: a non-numeric requested value
defaults to 100; a numeric value exceeding the collection size is
clamped down to the collection size, and then for a non-empty collection
of size N with requested item_per_page above N the effective page size
is N, the whole collection is returned as a single page, and the
returned `pages` count is exactly 1. -/
theorem pagination_ipp_normalization :
    (∀ ip : Option String, isnumeric (pyStrOpt ip) = false →
      ippDefault ip = 100) ∧
    (∀ (count : Nat) (ip : Option String), count < ippDefault ip →
      ippClamped count ip = count) ∧
    (∀ {α β : Type} (qs : List α) (f : α → β) (pp : Option String)
        (s : String) (n : Int),
      qs ≠ [] → pyIntOfPage pp = .ok n → isnumeric s = true →
      qs.length < digitsVal s.toList →
      pagination pp (some s) qs f =
        .ok (.dict { result := qs.map f, pages := 1, page := pageField n,
                     total_count := some qs.length })) := by
  refine ⟨?_, ?_, ?_⟩
  · intro ip h
    unfold ippDefault
    rw [if_neg (by simp [h])]
  · intro count ip h
    unfold ippClamped
    rw [if_pos h]
  · intro α β qs f pp s n hq hn hs hlt
    have hd : ippDefault (some s) = digitsVal s.toList := by
      unfold ippDefault pyStrOpt
      rw [if_pos hs]
    have hcl : ippClamped qs.length (some s) = qs.length := by
      unfold ippClamped
      rw [if_pos (by omega)]
    unfold pagination
    rw [hn]
    dsimp only
    rw [if_neg (by
      have := List.length_pos.mpr hq
      omega)]
    rw [hcl]
    exact paginationBody_full qs f n hq

/-- C5 witness: three records with requested item_per_page 5 collapse to
one full page. -/
theorem pagination_ipp_normalization_witness :
    ippDefault (some "abc") = 100 ∧
    ippClamped 3 (some "5") = 3 ∧
    pagination (some "2") (some "5") ([10, 20, 30] : List Nat)
      (fun n => n) =
      .ok (.dict { result := [10, 20, 30], pages := 1, page := pageField 2,
                   total_count := some 3 }) := by
  obtain ⟨h1, h2, h3⟩ := pagination_ipp_normalization
  refine ⟨h1 (some "abc") (by decide), h2 3 (some "5") (by decide), ?_⟩
  have h := h3 ([10, 20, 30] : List Nat) (fun n => n) (some "2") "5" 2
    (by decide) (by decide) (by decide) (by decide)
  rw [h]
  decide

/-- C6: for a non-empty collection, when the parsed requested page lies
beyond the last valid page (`num_pages`, with a positive effective page
size), pagination falls back to page 1's slice: it returns a dict whose
`result` is the first `item_per_page` records — not an empty result and
not an error. -/
theorem pagination_out_of_range_fallback :
    ∀ {α β : Type} (pp ip : Option String) (qs : List α) (f : α → β)
      (n : Int), qs ≠ [] → pyIntOfPage pp = .ok n →
      ippClamped qs.length ip ≠ 0 →
      (numPagesVal qs.length (ippClamped qs.length ip) : Int) < n →
      pagination pp ip qs f =
        .ok (.dict { result := (qs.take (ippClamped qs.length ip)).map f,
                     pages := numPagesVal qs.length (ippClamped qs.length ip),
                     page := pageField n,
                     total_count := some qs.length }) ∧
      (qs.take (ippClamped qs.length ip)).map f ≠ [] := by
  intro α β pp ip qs f n hq hn hip hout
  have hc : 1 ≤ qs.length := List.length_pos.mpr hq
  have hle := ippClamped_le qs.length ip
  constructor
  · unfold pagination
    rw [hn]
    dsimp only
    rw [if_neg (by omega)]
    exact paginationBody_out_of_range qs f (ippClamped qs.length ip) n hq
      (by omega) hle hout
  · apply List.length_pos.mp
    rw [List.length_map, List.length_take]
    omega

/-- C6 witness: page 99 on a 2-page collection of 3 records with page
size 2 yields page 1's two records. -/
theorem pagination_out_of_range_fallback_witness :
    pagination (some "99") (some "2") ([10, 20, 30] : List Nat)
      (fun n => n) =
      .ok (.dict { result := [10, 20], pages := 2, page := 99,
                   total_count := some 3 }) ∧
    ([10, 20] : List Nat) ≠ [] := by
  have h := pagination_out_of_range_fallback (some "99") (some "2")
    ([10, 20, 30] : List Nat) (fun n => n) 99 (by decide) (by decide)
    (by decide) (by decide)
  constructor
  · rw [h.1]
    decide
  · decide

set_option maxRecDepth 10000 in
/-- C7: the `pages` field of any returned dict is at least 1 (never 0);
for a non-empty collection with parsed page and nonzero effective page
size it equals `ceil(count / item_per_page)` (the 0-or-1-to-1
normalization is the identity there); concretely, 250 records with
item_per_page 100 give 3 pages, page 1 holds 100 records and page 3
holds the remaining 50. -/
theorem pagination_pages_spec :
    (∀ {α β : Type} (pp ip : Option String) (qs : List α) (f : α → β)
        (d : PageDict β), pagination pp ip qs f = .ok (.dict d) →
        1 ≤ d.pages) ∧
    (∀ {α β : Type} (pp ip : Option String) (qs : List α) (f : α → β)
        (n : Int) (d : PageDict β), qs ≠ [] → pyIntOfPage pp = .ok n →
        ippClamped qs.length ip ≠ 0 →
        pagination pp ip qs f = .ok (.dict d) →
        d.pages = (qs.length + ippClamped qs.length ip - 1) /
          ippClamped qs.length ip) ∧
    (pagination (some "1") (some "100") (List.range 250) (fun n => n) =
      .ok (.dict { result := List.range 100, pages := 3, page := 1,
                   total_count := some 250 }) ∧
      (List.range 100).length = 100) ∧
    (pagination (some "3") (some "100") (List.range 250) (fun n => n) =
      .ok (.dict { result := (List.range 250).drop 200, pages := 3,
                   page := 3, total_count := some 250 }) ∧
      ((List.range 250).drop 200).length = 50) := by
  refine ⟨?_, ?_, by decide, by decide⟩
  · intro α β pp ip qs f d hd
    unfold pagination at hd
    cases hp : pyIntOfPage pp with
    | error e =>
      rw [hp] at hd
      exact absurd hd (by simp)
    | ok n =>
      rw [hp] at hd
      dsimp only at hd
      by_cases hq : qs.length = 0
      · rw [if_pos hq] at hd
        simp only [Except.ok.injEq, PaginationResult.dict.injEq] at hd
        rw [← hd]
      · rw [if_neg hq] at hd
        exact (paginationBody_dict_props qs f _ n d hd).2
  · intro α β pp ip qs f n d hq hn hip hd
    have hc : 1 ≤ qs.length := List.length_pos.mpr hq
    obtain ⟨obj, hobj⟩ := pagination_dict_of_ok pp ip qs f n hq hn hip
    rw [hd] at hobj
    simp only [Except.ok.injEq, PaginationResult.dict.injEq] at hobj
    rw [hobj]
    dsimp only
    rw [numPagesVal_eq qs.length _ hc]

/-- C7 witness: 3 records at page size 2 produce `pages = 2`, matching
the ceiling formula, and at least 1. -/
theorem pagination_pages_spec_witness :
    1 ≤ ({ result := [10, 20], pages := 2, page := 1,
           total_count := some 3 } : PageDict Nat).pages ∧
    ({ result := [10, 20], pages := 2, page := 1,
       total_count := some 3 } : PageDict Nat).pages =
      (([10, 20, 30] : List Nat).length +
        ippClamped ([10, 20, 30] : List Nat).length (some "2") - 1) /
        ippClamped ([10, 20, 30] : List Nat).length (some "2") := by
  have hcall : pagination (some "1") (some "2") ([10, 20, 30] : List Nat)
      (fun n => n) =
      .ok (.dict { result := [10, 20], pages := 2, page := 1,
                   total_count := some 3 }) := by decide
  exact ⟨pagination_pages_spec.1 (some "1") (some "2") _ _ _ hcall,
    pagination_pages_spec.2.1 (some "1") (some "2") _ _ 1 _ (by decide)
      (by decide) (by decide) hcall⟩

/-- C8: pagination is a pure function of its request parameters, the
collection contents at call time and the formatter (in this embedding
the backing collection is passed by value and cannot be mutated): two
calls with equal inputs return equal results. -/
theorem pagination_deterministic :
    ∀ {α β : Type} (pp1 pp2 ip1 ip2 : Option String) (qs1 qs2 : List α)
      (f1 f2 : α → β), pp1 = pp2 → ip1 = ip2 → qs1 = qs2 → f1 = f2 →
      pagination pp1 ip1 qs1 f1 = pagination pp2 ip2 qs2 f2 := by
  intro α β pp1 pp2 ip1 ip2 qs1 qs2 f1 f2 h1 h2 h3 h4
  rw [h1, h2, h3, h4]

/-- C8 witness: two identical calls agree. -/
theorem pagination_deterministic_witness :
    pagination (some "1") none ([1] : List Nat) (fun n => n) =
      pagination (some "1") none ([1] : List Nat) (fun n => n) :=
  pagination_deterministic (some "1") (some "1") none none [1] [1]
    (fun n => n) (fun n => n) rfl rfl rfl rfl

/-- C9: for a non-empty collection and a parsed nonnegative requested
page `n` beyond the last valid page (positive effective page size), the
returned dict reports `page = n` — the requested number — while its
`result` holds page 1's records, so the reported page number and the
returned slice disagree and `page` exceeds `pages`. -/
theorem pagination_out_of_range_page_report :
    ∀ {α β : Type} (pp ip : Option String) (qs : List α) (f : α → β)
      (n : Int), qs ≠ [] → pyIntOfPage pp = .ok n → 0 ≤ n →
      ippClamped qs.length ip ≠ 0 →
      (numPagesVal qs.length (ippClamped qs.length ip) : Int) < n →
      ∃ d : PageDict β, pagination pp ip qs f = .ok (.dict d) ∧
        d.page = n ∧
        d.result = (qs.take (ippClamped qs.length ip)).map f ∧
        (d.pages : Int) < d.page := by
  intro α β pp ip qs f n hq hn hnn hip hout
  have hc : 1 ≤ qs.length := List.length_pos.mpr hq
  have hle := ippClamped_le qs.length ip
  have hmain : pagination pp ip qs f =
      .ok (.dict { result := (qs.take (ippClamped qs.length ip)).map f,
                   pages := numPagesVal qs.length (ippClamped qs.length ip),
                   page := pageField n, total_count := some qs.length }) := by
    unfold pagination
    rw [hn]
    dsimp only
    rw [if_neg (by omega)]
    exact paginationBody_out_of_range qs f (ippClamped qs.length ip) n hq
      (by omega) hle hout
  refine ⟨_, hmain, ?_, rfl, ?_⟩
  · dsimp only
    rw [pageField_eq, if_pos hnn]
  · dsimp only
    rw [pageField_eq, if_pos hnn]
    exact hout

/-- C9 witness: page 5 on a 2-page collection of 4 records with page
size 3 reports `page = 5` while returning page 1's three records. -/
theorem pagination_out_of_range_page_report_witness :
    ∃ d : PageDict Nat,
      pagination (some "5") (some "3") ([1, 2, 3, 4] : List Nat)
        (fun n => n) = .ok (.dict d) ∧
      d.page = 5 ∧
      d.result = (([1, 2, 3, 4] : List Nat).take
        (ippClamped ([1, 2, 3, 4] : List Nat).length (some "3"))).map
        (fun n => n) ∧
      (d.pages : Int) < d.page :=
  pagination_out_of_range_page_report (some "5") (some "3")
    ([1, 2, 3, 4] : List Nat) (fun n => n) 5 (by decide) (by decide)
    (by decide) (by decide) (by decide)

theorem user_key_creator_record_eq {V : Type} [Inhabited V]
    (i : List (String × V)) (h : hasNineKeys i) :
    user_key_creator_record i = .ok (renameRecord i) := by
  obtain ⟨h1, h2, h3, h4, h5, h6, h7, h8, h9⟩ := h
  rw [Option.isSome_iff_exists] at h1 h2 h3 h4 h5 h6 h7 h8 h9
  obtain ⟨v1, hv1⟩ := h1
  obtain ⟨v2, hv2⟩ := h2
  obtain ⟨v3, hv3⟩ := h3
  obtain ⟨v4, hv4⟩ := h4
  obtain ⟨v5, hv5⟩ := h5
  obtain ⟨v6, hv6⟩ := h6
  obtain ⟨v7, hv7⟩ := h7
  obtain ⟨v8, hv8⟩ := h8
  obtain ⟨v9, hv9⟩ := h9
  simp [user_key_creator_record, renameRecord, pyDictGet, hv1, hv2, hv3,
    hv4, hv5, hv6, hv7, hv8, hv9, Bind.bind, Except.bind, Pure.pure, Except.pure]

theorem user_key_creator_list_eq {V : Type} [Inhabited V]
    (l : List (List (String × V))) (h : ∀ r ∈ l, hasNineKeys r) :
    user_key_creator_list l = .ok (l.map renameRecord) := by
  induction l with
  | nil => rfl
  | cons i rest ih =>
    have hi := h i (List.mem_cons_self i rest)
    have hrest := ih fun r hr => h r (List.mem_cons_of_mem i hr)
    simp [user_key_creator_list, user_key_creator_record_eq i hi, hrest,
      Bind.bind, Except.bind, Pure.pure, Except.pure]

/-- C10: on a list of records each carrying the nine occtl keys,
`user_key_creator` returns (without raising) the same-length,
same-order list whose i-th element is the renamed dict built from the
i-th input record; and a JSON-string argument produces exactly the
output of the parsed list. -/
theorem user_key_creator_spec {V : Type} [Inhabited V]
    (loads : String → List (List (String × V)))
    (l : List (List (String × V))) (h : ∀ r ∈ l, hasNineKeys r) :
    user_key_creator loads (.list l) = .ok (l.map renameRecord) ∧
    (l.map renameRecord).length = l.length ∧
    (∀ (i : Nat) (hi : i < l.length) (hj : i < (l.map renameRecord).length),
      (l.map renameRecord).get ⟨i, hj⟩ = renameRecord (l.get ⟨i, hi⟩)) ∧
    (∀ s : String, user_key_creator loads (.str s) =
      user_key_creator loads (.list (loads s))) := by
  refine ⟨user_key_creator_list_eq l h, List.length_map l renameRecord,
    ?_, fun s => rfl⟩
  intro i hi hj
  simp

/-- C10 witness: one record with the nine occtl keys is renamed into the
snake_case dict. -/
theorem user_key_creator_spec_witness :
    user_key_creator (fun _ => ([] : List (List (String × String))))
      (.list [[("Username", "u"), ("Hostname", "h"), ("Device", "d"),
               ("Remote IP", "r"), ("User-Agent", "ua"),
               ("_Connected at", "s"), ("Connected at", "c"),
               ("Average RX", "rx"), ("Average TX", "tx")]]) =
      .ok [[("username", "u"), ("hostname", "h"), ("device", "d"),
            ("remote_ip", "r"), ("user_agent", "ua"), ("since", "s"),
            ("connected_at", "c"), ("average_rx", "rx"),
            ("average_tx", "tx")]] := by
  have h := (user_key_creator_spec
    (fun _ => ([] : List (List (String × String))))
    [[("Username", "u"), ("Hostname", "h"), ("Device", "d"),
      ("Remote IP", "r"), ("User-Agent", "ua"), ("_Connected at", "s"),
      ("Connected at", "c"), ("Average RX", "rx"), ("Average TX", "tx")]]
    (by decide)).1
  rw [h]
  decide

end Ocserv
